import Mathlib

/-!
Verification of the ADB packet dispatcher
(`src/libraries/adb/src/socket/dispatcher.ts`).

The dispatcher is embedded shallowly: each handler of the TypeScript class
`AdbPacketDispatcher` becomes a pure Lean function from a dispatcher state to
a new state together with a list of observable effects (packets written to
the transport writer, calls into socket controllers, promise resolutions).
Machine numbers (`arg0`, `arg1`, payload bytes, `maxPayloadSize`) are
modelled as `Nat`; fallible operations return `Except`.
-/

namespace YaAdb

/-- ADB command tags handled by the dispatcher (`AdbCommand` in `packet.ts`).
The dispatcher dispatches on `OK`, `Close`, `Write` and `Open`. -/
inductive AdbCommand where
  | Auth
  | Close
  | Connect
  | OK
  | Open
  | Write
  deriving DecidableEq, Repr

/-- Inbound packet form (`AdbPacketData`): command, two 32-bit args and a
byte payload.  Bytes are `Nat`s below 256 in intended use. -/
structure AdbPacketData where
  command : AdbCommand
  arg0 : Nat
  arg1 : Nat
  payload : List Nat
  deriving DecidableEq, Repr

/-- Outbound packet form (`AdbPacketInit`): as `AdbPacketData` plus the
`checksum` field filled in by `sendPacket`. -/
structure SentPacket where
  command : AdbCommand
  arg0 : Nat
  arg1 : Nat
  payload : List Nat
  checksum : Nat
  deriving DecidableEq, Repr

/-- Dispatcher configuration (`AdbPacketDispatcherOptions`). -/
structure AdbPacketDispatcherOptions where
  calculateChecksum : Bool
  appendNullToServiceString : Bool
  maxPayloadSize : Nat
  deriving DecidableEq, Repr

/-- Modelled from the spec: the packet checksum helper `calculateChecksum`
of `packet.ts` (absent from `src/`) computes the 32-bit sum of the payload
bytes (spec section 3: "checksum: 32-bit sum of payload bytes"). -/
def calculateChecksum (payload : List Nat) : Nat :=
  (payload.foldl (fun a b => a + b) 0) % 4294967296

/-- UTF-8 encoding of one character, by codepoint ranges. -/
def utf8EncodeChar (c : Char) : List Nat :=
  let n := c.toNat
  if n < 128 then [n]
  else if n < 2048 then [192 + n / 64, 128 + n % 64]
  else if n < 65536 then [224 + n / 4096, 128 + n / 64 % 64, 128 + n % 64]
  else [240 + n / 262144, 128 + n / 4096 % 64, 128 + n / 64 % 64, 128 + n % 64]

/-- Modelled from the spec: `encodeUtf8` of `utils/index.ts` (absent from
`src/`), the standard UTF-8 encoding of a string into bytes. -/
def encodeUtf8 (s : String) : List Nat :=
  s.data.foldr (fun c acc => utf8EncodeChar c ++ acc) []

/-- UTF-8 decoding loop with explicit fuel (the fuel is the byte count, and
every step consumes at least one byte, so the fuel never runs out on the
intended calls).  Truncated or stray sequences are skipped. -/
def utf8DecodeAux : Nat → List Nat → List Char
  | 0, _ => []
  | _, [] => []
  | fuel + 1, b :: rest =>
    if b < 128 then Char.ofNat b :: utf8DecodeAux fuel rest
    else if b < 192 then utf8DecodeAux fuel rest
    else if b < 224 then
      match rest with
      | b1 :: rest1 => Char.ofNat ((b % 32) * 64 + b1 % 64) :: utf8DecodeAux fuel rest1
      | [] => []
    else if b < 240 then
      match rest with
      | b1 :: b2 :: rest2 =>
          Char.ofNat ((b % 16) * 4096 + (b1 % 64) * 64 + b2 % 64) :: utf8DecodeAux fuel rest2
      | _ => []
    else
      match rest with
      | b1 :: b2 :: b3 :: rest3 =>
          Char.ofNat ((b % 8) * 262144 + (b1 % 64) * 4096 + (b2 % 64) * 64 + b3 % 64)
            :: utf8DecodeAux fuel rest3
      | _ => []

/-- Modelled from the spec: `decodeUtf8` of `utils/index.ts` (absent from
`src/`), the standard UTF-8 decoding of bytes into a string (a thin wrapper
over `TextDecoder`; spec section 4.4 names this step "Decode serviceString
as UTF-8"). -/
def decodeUtf8 (bytes : List Nat) : String :=
  ⟨utf8DecodeAux bytes.length bytes⟩

/-- Spec-side definition, following the spec's words only: strip one
trailing NUL character from a string when present (spec section 4.4, OPEN
step 2: "strip trailing NUL if present").  Used to compare the spec's
claimed service-string handling against the source's. -/
def specStripTrailingNul (s : String) : String :=
  if s.data.getLast? = some (Char.ofNat 0) then ⟨s.data.dropLast⟩ else s

/-- Modelled from the spec: the per-stream controller state of
`AdbSocketController` (`socket.ts`, absent from `src/`; spec section 3,
"LogicalStream attributes").  Only the fields the dispatcher reads or
writes are modelled. -/
structure AdbSocketController where
  localId : Nat
  remoteId : Nat
  localCreated : Bool
  serviceString : String
  closed : Bool
  deriving DecidableEq, Repr

/-- Association-list lookup, modelling `Map.get`. -/
def mapGet {α : Type} : List (Nat × α) → Nat → Option α
  | [], _ => none
  | (k, v) :: rest, k' => if k = k' then some v else mapGet rest k'

/-- Association-list deletion, modelling `Map.delete` (keys are unique in
every reachable table, so removing every binding of the key is exact). -/
def mapDelete {α : Type} (m : List (Nat × α)) (k : Nat) : List (Nat × α) :=
  m.filter (fun e => e.1 != k)

/-- Association-list update, modelling `Map.set`. -/
def mapSet {α : Type} (m : List (Nat × α)) (k : Nat) (v : α) : List (Nat × α) :=
  mapDelete m k ++ [(k, v)]

/-- Observable effects of one dispatcher step: packets handed to the
transport writer, calls into socket controllers, and completions of the
pending-open operations and of the `disconnected` promise. -/
inductive Effect where
  /-- `this._writer.write(packet)` inside `sendPacket`. -/
  | send (p : SentPacket)
  /-- `socket.enqueue(payload)` on the stream with this local id. -/
  | enqueue (localId : Nat) (payload : List Nat)
  /-- `socket.ack()` on the stream with this local id. -/
  | ack (localId : Nat)
  /-- The pending open with this local id resolved with this remote id;
  the awaiting `createSocket` continuation is resumed. -/
  | resolveOpen (localId : Nat) (remoteId : Nat)
  /-- The pending open with this local id rejected with `Error(msg)`;
  the awaiting `createSocket` call throws. -/
  | rejectOpen (localId : Nat) (msg : String)
  /-- `socket.dispose()` on the stream with this local id. -/
  | disposeSocket (localId : Nat)
  /-- The `disconnected` promise resolved (carrying no error). -/
  | resolveDisconnected
  deriving DecidableEq, Repr

/-- Dispatcher state (`AdbPacketDispatcher` fields):

* `nextId` — the id counter of the async operation manager, started at 1
  ("ADB socket id starts from 1 (0 means open failed)");
* `pendingOpens` — ids of unresolved pending-open operations (the manager's
  entry table; spec section 4.2 "PendingOpenTable");
* `resolvedOpens` — `(localId, remoteId)` pairs whose pending open was
  resolved by `handleOk` but whose awaiting `createSocket` continuation has
  not yet run its `sockets.set`;
* `sockets` — the stream table `Map<number, AdbSocketController>`;
* `disconnected` — the `PromiseResolver<void>`: `none` while unsettled,
  `some none` once resolved (no error), `some (some e)` if rejected
  (the dispatcher never rejects it). -/
structure DispatcherState where
  nextId : Nat
  pendingOpens : List Nat
  resolvedOpens : List (Nat × Nat)
  sockets : List (Nat × AdbSocketController)
  disconnected : Option (Option String)
  deriving DecidableEq, Repr

/-- The state of a freshly constructed dispatcher. -/
def initState : DispatcherState :=
  { nextId := 1
    pendingOpens := []
    resolvedOpens := []
    sockets := []
    disconnected := none }

/-- Resolving a `PromiseResolver`: settles an unsettled promise with no
error; a later `resolve()` on a settled promise has no effect. -/
def resolverResolve (d : Option (Option String)) : Option (Option String) :=
  match d with
  | none => some none
  | some r => some r

/-- Model of `sendPacket` (dispatcher lines 222-256), byte-payload form:
fails when the payload exceeds `maxPayloadSize` (before anything reaches
the writer); otherwise fills the checksum — computed from the payload when
`calculateChecksum` is set, `0` otherwise — and hands the packet to the
transport writer.  `Except.ok p` means exactly `p` was written;
`Except.error` means nothing was written. -/
def sendPacket (opts : AdbPacketDispatcherOptions) (command : AdbCommand)
    (arg0 arg1 : Nat) (payload : List Nat) : Except String SentPacket :=
  if payload.length > opts.maxPayloadSize then
    .error "payload too large"
  else
    .ok { command := command, arg0 := arg0, arg1 := arg1, payload := payload,
          checksum := if opts.calculateChecksum then calculateChecksum payload else 0 }

/-- Model of `sendPacket` with a string payload: the string is UTF-8
encoded first (dispatcher lines 232-234). -/
def sendPacketStr (opts : AdbPacketDispatcherOptions) (command : AdbCommand)
    (arg0 arg1 : Nat) (payload : String) : Except String SentPacket :=
  sendPacket opts command arg0 arg1 (encodeUtf8 payload)

/-- The packet produced by `sendPacket` for an empty payload (the reply
packets of the handlers carry no payload; an empty payload never exceeds
`maxPayloadSize : Nat`, so such a send cannot fail). -/
def sendEmptyPacket (opts : AdbPacketDispatcherOptions) (command : AdbCommand)
    (arg0 arg1 : Nat) : SentPacket :=
  { command := command, arg0 := arg0, arg1 := arg1, payload := [],
    checksum := if opts.calculateChecksum then calculateChecksum [] else 0 }

/-- Model of `handleOk` (dispatcher lines 107-123):
1. if the packet's `arg1` is a pending open, resolve it with `arg0`
   (removing the entry; the `createSocket` continuation becomes runnable);
2. else if a stream with local id `arg1` exists, call `ack()` on it;
3. else send `CLSE(packet.arg1, packet.arg0)` ("tell the device to close
   the socket"). -/
def handleOk (opts : AdbPacketDispatcherOptions) (st : DispatcherState)
    (p : AdbPacketData) : DispatcherState × List Effect :=
  if p.arg1 ∈ st.pendingOpens then
    ({ st with pendingOpens := st.pendingOpens.filter (fun i => i != p.arg1)
               resolvedOpens := st.resolvedOpens ++ [(p.arg1, p.arg0)] },
     [.resolveOpen p.arg1 p.arg0])
  else
    match mapGet st.sockets p.arg1 with
    | some _ => (st, [.ack p.arg1])
    | none => (st, [.send (sendEmptyPacket opts .Close p.arg1 p.arg0)])

/-- Model of `handleClose` (dispatcher lines 125-153):
1. if `arg0 == 0` and `arg1` is a pending open, reject it with
   `Error("Socket open failed")` (removing the entry) and return;
2. else if a stream with local id `arg1` exists: reply
   `CLSE(packet.arg1, packet.arg0)` unless the stream is already closed,
   then dispose it and delete it from the table;
3. else ignore the packet. -/
def handleClose (opts : AdbPacketDispatcherOptions) (st : DispatcherState)
    (p : AdbPacketData) : DispatcherState × List Effect :=
  if p.arg0 = 0 ∧ p.arg1 ∈ st.pendingOpens then
    ({ st with pendingOpens := st.pendingOpens.filter (fun i => i != p.arg1) },
     [.rejectOpen p.arg1 "Socket open failed"])
  else
    match mapGet st.sockets p.arg1 with
    | some socket =>
        ({ st with sockets := mapDelete st.sockets p.arg1 },
         (if socket.closed then []
          else [.send (sendEmptyPacket opts .Close p.arg1 p.arg0)])
           ++ [.disposeSocket p.arg1])
    | none => (st, [])

/-- Model of the `WRTE` case of the inbound loop (dispatcher lines 72-80):
when a stream with local id `arg1` exists, `enqueue(payload)` is awaited
and only then `OKAY(packet.arg1, packet.arg0)` is sent (the order of the
effect list is the order of the calls); otherwise the packet is ignored. -/
def handleWrite (opts : AdbPacketDispatcherOptions) (st : DispatcherState)
    (p : AdbPacketData) : DispatcherState × List Effect :=
  match mapGet st.sockets p.arg1 with
  | some _ =>
      (st, [.enqueue p.arg1 p.payload,
            .send (sendEmptyPacket opts .OK p.arg1 p.arg0)])
  | none => (st, [])

/-- The socket controller constructed by `handleOpen` (dispatcher lines
164-170): remote id from the packet's `arg0`, service string decoded from
the payload — with no further processing — and not locally created. -/
def openController (st : DispatcherState) (p : AdbPacketData) : AdbSocketController :=
  { localId := st.nextId
    remoteId := p.arg0
    localCreated := false
    serviceString := decodeUtf8 p.payload
    closed := false }

/-- Model of `handleOpen` (dispatcher lines 155-186).  The handler first
reserves a local id by an `add` immediately followed by a self-`resolve`
(lines 158-159: the counter advances, the entry is added and removed, and
the dropped promise has no awaiting continuation); it then constructs the
controller and fires the incoming-socket event.  `handled` is the value of
`args.handled` after the hook ran: when `true` the controller is stored
under the new local id and `OKAY(localId, remoteId)` is sent; otherwise
`CLSE(0, remoteId)` is sent and the controller is discarded. -/
def handleOpen (opts : AdbPacketDispatcherOptions) (st : DispatcherState)
    (p : AdbPacketData) (handled : Bool) : DispatcherState × List Effect :=
  let localId := st.nextId
  let added := st.pendingOpens ++ [localId]
  let st1 := { st with nextId := st.nextId + 1
                       pendingOpens := added.filter (fun i => i != localId) }
  let controller := openController st p
  if handled then
    ({ st1 with sockets := mapSet st1.sockets localId controller },
     [.send (sendEmptyPacket opts .OK localId p.arg0)])
  else
    (st1, [.send (sendEmptyPacket opts .Close 0 p.arg0)])

/-- Result of the first half of `createSocket` (dispatcher lines 188-199),
up to and including the `OPEN` send: the updated state (the id counter
advanced and the pending open recorded before the send), the allocated
local id, the effective service string (after the optional NUL append) and
the outcome of the send. -/
structure CreateStart where
  state : DispatcherState
  localId : Nat
  service : String
  sendResult : Except String SentPacket
  deriving Repr

/-- Model of the first half of `createSocket` (dispatcher lines 188-199):
append `"\x00"` to the service string when `appendNullToServiceString` is
set, allocate a local id, record the pending open, and send
`OPEN(localId, 0, service)`. -/
def createSocketStart (opts : AdbPacketDispatcherOptions) (st : DispatcherState)
    (serviceString : String) : CreateStart :=
  let service :=
    if opts.appendNullToServiceString then serviceString ++ "\x00" else serviceString
  let localId := st.nextId
  { state := { st with nextId := st.nextId + 1
                       pendingOpens := st.pendingOpens ++ [localId] }
    localId := localId
    service := service
    sendResult := sendPacketStr opts .Open localId 0 service }

/-- Model of the second half of `createSocket` (dispatcher lines 201-212),
the continuation resumed once `handleOk` has resolved the pending open with
the remote id: construct the locally-created controller carrying the
effective service string and store it in the stream table. -/
def createSocketFinish (st : DispatcherState) (localId remoteId : Nat)
    (service : String) : DispatcherState × AdbSocketController :=
  let controller : AdbSocketController :=
    { localId := localId
      remoteId := remoteId
      localCreated := true
      serviceString := service
      closed := false }
  ({ st with sockets := mapSet st.sockets localId controller }, controller)

/-- Model of `dispose` (dispatcher lines 258-274): call `dispose()` on
every stream of the table, clear the table, abort the inbound pipe and
release the writer (external, idempotent, not modelled), and resolve the
`disconnected` promise.  The effect list records the socket disposals in
table order followed by the resolution event of `disconnected` — present
only when the promise was still unsettled, since a promise settles at most
once. -/
def dispose (st : DispatcherState) : DispatcherState × List Effect :=
  ({ st with sockets := []
             disconnected := resolverResolve st.disconnected },
   st.sockets.map (fun e => Effect.disposeSocket e.1)
     ++ (match st.disconnected with
         | none => [Effect.resolveDisconnected]
         | some _ => []))

/-- Model of the completion callbacks of the inbound pipe (dispatcher lines
97-102): both the fulfilled branch (clean end of the inbound pipe) and the
rejected branch (pipe error) call `this.dispose()` and nothing else. -/
def onPipeSettled (_errored : Bool) (st : DispatcherState) : DispatcherState × List Effect :=
  dispose st

/-- N successive calls of `dispose`, accumulating the effects. -/
def disposeN : Nat → DispatcherState → DispatcherState × List Effect
  | 0, st => (st, [])
  | n + 1, st =>
    let r := dispose st
    let r2 := disposeN n r.1
    (r2.1, r.2 ++ r2.2)

/-- One atomic dispatcher operation, for reasoning about arbitrary
interleavings: the four inbound packet handlers (an `OPEN` carries the
hook's decision), the two halves of a `createSocket` call (the second half
resumes the continuation of the earliest resolved open), and `dispose`. -/
inductive DispOp where
  | recvOk (p : AdbPacketData)
  | recvClose (p : AdbPacketData)
  | recvWrite (p : AdbPacketData)
  | recvOpen (p : AdbPacketData) (handled : Bool)
  | createStart (serviceString : String)
  | createFinish (service : String)
  | disposeOp
  deriving DecidableEq, Repr

/-- The state reached by one dispatcher operation. -/
def stepOp (opts : AdbPacketDispatcherOptions) (st : DispatcherState) :
    DispOp → DispatcherState
  | .recvOk p => (handleOk opts st p).1
  | .recvClose p => (handleClose opts st p).1
  | .recvWrite p => (handleWrite opts st p).1
  | .recvOpen p handled => (handleOpen opts st p handled).1
  | .createStart s => (createSocketStart opts st s).state
  | .createFinish s =>
      match st.resolvedOpens with
      | [] => st
      | (localId, remoteId) :: rest =>
          (createSocketFinish { st with resolvedOpens := rest } localId remoteId s).1
  | .disposeOp => (dispose st).1

/-- The state reached by a sequence of dispatcher operations. -/
def runOps (opts : AdbPacketDispatcherOptions) (st : DispatcherState) :
    List DispOp → DispatcherState
  | [] => st
  | op :: rest => runOps opts (stepOp opts st op) rest

/-- The local ids present in the stream table. -/
def socketIds (st : DispatcherState) : List Nat :=
  st.sockets.map (fun e => e.1)

/-- The local ids of resolved-but-not-yet-stored opens. -/
def resolvedIds (st : DispatcherState) : List Nat :=
  st.resolvedOpens.map (fun e => e.1)

/-- Reachability invariant of the dispatcher state: every id of any of the
three tables is below the id counter, and a pending open id is in neither
the stream table nor the resolved-open list. -/
structure Inv (st : DispatcherState) : Prop where
  pend_lt : ∀ id ∈ st.pendingOpens, id < st.nextId
  sock_lt : ∀ id ∈ socketIds st, id < st.nextId
  res_lt : ∀ id ∈ resolvedIds st, id < st.nextId
  pend_sock : ∀ id ∈ st.pendingOpens, id ∉ socketIds st
  pend_res : ∀ id ∈ st.pendingOpens, id ∉ resolvedIds st

/-! Concrete sample values, used by witness and counterexample theorems. -/

/-- Sample options: no checksums, no NUL appending, 4 KiB payload limit. -/
def opts0 : AdbPacketDispatcherOptions :=
  { calculateChecksum := false, appendNullToServiceString := false, maxPayloadSize := 4096 }

/-- Sample stream controller: ids `(1, 17)`, peer-created, not closed. -/
def ctrl0 : AdbSocketController :=
  { localId := 1, remoteId := 17, localCreated := false, serviceString := "shell:",
    closed := false }

/-- Sample state holding the single stream `(1, 17)`. -/
def stOne : DispatcherState :=
  { nextId := 2, pendingOpens := [], resolvedOpens := [], sockets := [(1, ctrl0)],
    disconnected := none }

/-- Sample state with a pending open for local id `5`. -/
def stPend : DispatcherState :=
  { nextId := 6, pendingOpens := [5], resolvedOpens := [], sockets := [],
    disconnected := none }

/-- Inbound `OKAY(9, 5)` matching neither table (spec scenario S5). -/
def pStaleOk : AdbPacketData :=
  { command := .OK, arg0 := 9, arg1 := 5, payload := [] }

/-- Inbound `OPEN(42, 0, "sync:\x00")` (spec scenario S6); the payload bytes
are the UTF-8 encoding of `"sync:"` followed by a NUL. -/
def pOpenSync : AdbPacketData :=
  { command := .Open, arg0 := 42, arg1 := 0, payload := [115, 121, 110, 99, 58, 0] }

/-- Inbound `WRTE(17, 1, "hi")` for the stream `(1, 17)` (spec scenario S4). -/
def pWrite : AdbPacketData :=
  { command := .Write, arg0 := 17, arg1 := 1, payload := [104, 105] }

/-- Inbound `CLSE(0, 5)` rejecting the pending open `5` (spec scenario S2). -/
def pCloseReject : AdbPacketData :=
  { command := .Close, arg0 := 0, arg1 := 5, payload := [] }

/-- Inbound `CLSE(17, 1)` closing the stream `(1, 17)`. -/
def pCloseStream : AdbPacketData :=
  { command := .Close, arg0 := 17, arg1 := 1, payload := [] }

/-- Sample options with a 2-byte payload limit. -/
def optsTiny : AdbPacketDispatcherOptions :=
  { calculateChecksum := false, appendNullToServiceString := false, maxPayloadSize := 2 }

/-- Sample options with checksums switched on. -/
def optsChk : AdbPacketDispatcherOptions :=
  { calculateChecksum := true, appendNullToServiceString := false, maxPayloadSize := 4096 }

/-- Sample options with NUL appending switched on. -/
def optsNul : AdbPacketDispatcherOptions :=
  { calculateChecksum := false, appendNullToServiceString := true, maxPayloadSize := 4096 }

/-! Helper lemmas about the association-list operations. -/

theorem sendPacket_nil (opts : AdbPacketDispatcherOptions) (c : AdbCommand) (a0 a1 : Nat) :
    sendPacket opts c a0 a1 [] = .ok (sendEmptyPacket opts c a0 a1) := by
  simp [sendPacket, sendEmptyPacket]

theorem mapGet_append_none {α : Type} {l1 : List (Nat × α)} {k : Nat}
    (h : mapGet l1 k = none) (l2 : List (Nat × α)) :
    mapGet (l1 ++ l2) k = mapGet l2 k := by
  induction l1 with
  | nil => simp
  | cons e rest ih =>
      rcases e with ⟨k', v⟩
      simp only [mapGet, List.cons_append] at h ⊢
      by_cases hk : k' = k
      · simp [hk] at h
      · simpa [hk] using ih (by simpa [hk] using h)

theorem mapGet_mapDelete_self {α : Type} (m : List (Nat × α)) (k : Nat) :
    mapGet (mapDelete m k) k = none := by
  induction m with
  | nil => rfl
  | cons e rest ih =>
      rcases e with ⟨k', v⟩
      by_cases hk : k' = k
      · simpa [mapDelete, List.filter_cons, hk] using ih
      · simpa [mapDelete, List.filter_cons, hk, mapGet] using ih

theorem mapGet_mapSet_self {α : Type} (m : List (Nat × α)) (k : Nat) (v : α) :
    mapGet (mapSet m k v) k = some v := by
  rw [mapSet, mapGet_append_none (mapGet_mapDelete_self m k)]
  simp [mapGet]

theorem mem_keys_mapDelete {α : Type} {m : List (Nat × α)} {k id : Nat}
    (h : id ∈ (mapDelete m k).map (fun e => e.1)) : id ∈ m.map (fun e => e.1) := by
  rcases List.mem_map.mp h with ⟨e, he, rfl⟩
  exact List.mem_map.mpr ⟨e, List.mem_of_mem_filter he, rfl⟩

theorem mem_keys_mapSet {α : Type} {m : List (Nat × α)} {k id : Nat} {v : α}
    (h : id ∈ (mapSet m k v).map (fun e => e.1)) :
    id = k ∨ id ∈ m.map (fun e => e.1) := by
  rw [mapSet, List.map_append] at h
  rcases List.mem_append.mp h with h1 | h1
  · exact Or.inr (mem_keys_mapDelete h1)
  · simp at h1
    exact Or.inl h1

/-! Preservation of the reachability invariant `Inv` by every dispatcher
operation, and hence by every operation sequence from the fresh state. -/

theorem inv_init : Inv initState := by
  constructor <;> simp [initState, socketIds, resolvedIds]

theorem inv_handleOk (opts : AdbPacketDispatcherOptions) {st : DispatcherState}
    (hInv : Inv st) (p : AdbPacketData) : Inv (handleOk opts st p).1 := by
  by_cases hp : p.arg1 ∈ st.pendingOpens
  · rw [handleOk, if_pos hp]
    constructor
    · intro id hid
      rw [List.mem_filter] at hid
      exact hInv.pend_lt id hid.1
    · intro id hid
      exact hInv.sock_lt id hid
    · intro id hid
      simp only [resolvedIds, List.map_append, List.mem_append, List.map_cons] at hid
      rcases hid with hid | hid
      · exact hInv.res_lt id hid
      · simp at hid
        subst hid
        exact hInv.pend_lt _ hp
    · intro id hid
      rw [List.mem_filter] at hid
      exact hInv.pend_sock id hid.1
    · intro id hid
      rw [List.mem_filter] at hid
      simp only [resolvedIds, List.map_append, List.mem_append]
      rintro (h | h)
      · exact hInv.pend_res id hid.1 h
      · simp at h
        subst h
        simp at hid
  · rw [handleOk, if_neg hp]
    cases h : mapGet st.sockets p.arg1 <;> exact hInv

theorem inv_handleClose (opts : AdbPacketDispatcherOptions) {st : DispatcherState}
    (hInv : Inv st) (p : AdbPacketData) : Inv (handleClose opts st p).1 := by
  by_cases hc : p.arg0 = 0 ∧ p.arg1 ∈ st.pendingOpens
  · rw [handleClose, if_pos hc]
    constructor
    · intro id hid
      rw [List.mem_filter] at hid
      exact hInv.pend_lt id hid.1
    · exact hInv.sock_lt
    · exact hInv.res_lt
    · intro id hid
      rw [List.mem_filter] at hid
      exact hInv.pend_sock id hid.1
    · intro id hid
      rw [List.mem_filter] at hid
      exact hInv.pend_res id hid.1
  · rw [handleClose, if_neg hc]
    cases h : mapGet st.sockets p.arg1 with
    | none => exact hInv
    | some sk =>
        constructor
        · exact hInv.pend_lt
        · intro id hid
          exact hInv.sock_lt id (mem_keys_mapDelete hid)
        · exact hInv.res_lt
        · intro id hid hmem
          exact hInv.pend_sock id hid (mem_keys_mapDelete hmem)
        · exact hInv.pend_res

theorem inv_handleWrite (opts : AdbPacketDispatcherOptions) {st : DispatcherState}
    (hInv : Inv st) (p : AdbPacketData) : Inv (handleWrite opts st p).1 := by
  rw [handleWrite]
  cases h : mapGet st.sockets p.arg1 <;> exact hInv

theorem mem_pend_handleOpen {st : DispatcherState} {id : Nat}
    (h : id ∈ ((st.pendingOpens ++ [st.nextId]).filter (fun i => i != st.nextId))) :
    id ∈ st.pendingOpens ∧ id ≠ st.nextId := by
  rw [List.mem_filter] at h
  rcases h with ⟨h1, h2⟩
  simp at h2
  rcases List.mem_append.mp h1 with h1 | h1
  · exact ⟨h1, h2⟩
  · simp at h1
    exact absurd h1 h2

theorem inv_handleOpen (opts : AdbPacketDispatcherOptions) {st : DispatcherState}
    (hInv : Inv st) (p : AdbPacketData) (handled : Bool) :
    Inv (handleOpen opts st p handled).1 := by
  rw [handleOpen]
  cases handled with
  | false =>
      simp only [Bool.false_eq_true, if_false]
      constructor
      · intro id hid
        exact Nat.lt_succ_of_lt (hInv.pend_lt id (mem_pend_handleOpen hid).1)
      · intro id hid
        exact Nat.lt_succ_of_lt (hInv.sock_lt id hid)
      · intro id hid
        exact Nat.lt_succ_of_lt (hInv.res_lt id hid)
      · intro id hid
        exact hInv.pend_sock id (mem_pend_handleOpen hid).1
      · intro id hid
        exact hInv.pend_res id (mem_pend_handleOpen hid).1
  | true =>
      simp only [if_true]
      constructor
      · intro id hid
        exact Nat.lt_succ_of_lt (hInv.pend_lt id (mem_pend_handleOpen hid).1)
      · intro id hid
        rcases mem_keys_mapSet hid with h | h
        · subst h
          exact Nat.lt_succ_self _
        · exact Nat.lt_succ_of_lt (hInv.sock_lt id h)
      · intro id hid
        exact Nat.lt_succ_of_lt (hInv.res_lt id hid)
      · intro id hid hmem
        rcases mem_keys_mapSet hmem with h | h
        · exact (mem_pend_handleOpen hid).2 h
        · exact hInv.pend_sock id (mem_pend_handleOpen hid).1 h
      · intro id hid
        exact hInv.pend_res id (mem_pend_handleOpen hid).1

theorem inv_createStart (opts : AdbPacketDispatcherOptions) {st : DispatcherState}
    (hInv : Inv st) (s : String) : Inv (createSocketStart opts st s).state := by
  rw [createSocketStart]
  constructor
  · intro id hid
    rcases List.mem_append.mp hid with h | h
    · exact Nat.lt_succ_of_lt (hInv.pend_lt id h)
    · simp at h
      subst h
      exact Nat.lt_succ_self _
  · intro id hid
    exact Nat.lt_succ_of_lt (hInv.sock_lt id hid)
  · intro id hid
    exact Nat.lt_succ_of_lt (hInv.res_lt id hid)
  · intro id hid
    rcases List.mem_append.mp hid with h | h
    · exact hInv.pend_sock id h
    · simp at h
      subst h
      intro hmem
      exact absurd (hInv.sock_lt _ hmem) (Nat.lt_irrefl _)
  · intro id hid
    rcases List.mem_append.mp hid with h | h
    · exact hInv.pend_res id h
    · simp at h
      subst h
      intro hmem
      exact absurd (hInv.res_lt _ hmem) (Nat.lt_irrefl _)

theorem inv_createFinish {st : DispatcherState} (hInv : Inv st) (s : String)
    (opts : AdbPacketDispatcherOptions) :
    Inv (stepOp opts st (.createFinish s)) := by
  rw [stepOp]
  cases hr : st.resolvedOpens with
  | nil => exact hInv
  | cons e rest =>
      rcases e with ⟨localId, remoteId⟩
      have hlid : localId ∈ resolvedIds st := by
        simp [resolvedIds, hr]
      simp only [createSocketFinish]
      constructor
      · exact hInv.pend_lt
      · intro id hid
        rcases mem_keys_mapSet hid with h | h
        · subst h
          exact hInv.res_lt _ hlid
        · exact hInv.sock_lt id h
      · intro id hid
        refine hInv.res_lt id ?_
        simp only [resolvedIds, hr, List.map_cons]
        exact List.mem_cons_of_mem _ hid
      · intro id hid hmem
        rcases mem_keys_mapSet hmem with h | h
        · subst h
          exact hInv.pend_res id hid hlid
        · exact hInv.pend_sock id hid h
      · intro id hid hmem
        refine hInv.pend_res id hid ?_
        simp only [resolvedIds, hr, List.map_cons]
        exact List.mem_cons_of_mem _ hmem

theorem inv_dispose {st : DispatcherState} (hInv : Inv st) : Inv (dispose st).1 := by
  rw [dispose]
  constructor
  · exact hInv.pend_lt
  · intro id hid
    simp [socketIds] at hid
  · exact hInv.res_lt
  · intro id hid hmem
    simp [socketIds] at hmem
  · exact hInv.pend_res

theorem inv_step (opts : AdbPacketDispatcherOptions) {st : DispatcherState}
    (hInv : Inv st) (op : DispOp) : Inv (stepOp opts st op) := by
  cases op with
  | recvOk p => exact inv_handleOk opts hInv p
  | recvClose p => exact inv_handleClose opts hInv p
  | recvWrite p => exact inv_handleWrite opts hInv p
  | recvOpen p handled => exact inv_handleOpen opts hInv p handled
  | createStart s => exact inv_createStart opts hInv s
  | createFinish s => exact inv_createFinish hInv s opts
  | disposeOp => exact inv_dispose hInv

theorem inv_runOps (opts : AdbPacketDispatcherOptions) (ops : List DispOp) :
    ∀ st : DispatcherState, Inv st → Inv (runOps opts st ops) := by
  induction ops with
  | nil => intro st h; exact h
  | cons op rest ih => intro st h; exact ih _ (inv_step opts h op)

/-! Helper lemmas about `dispose`. -/

theorem dispose_settled {st : DispatcherState} (h1 : st.sockets = [])
    {r : Option String} (h2 : st.disconnected = some r) : dispose st = (st, []) := by
  cases st
  simp_all [dispose, resolverResolve]

theorem disposeN_settled (k : Nat) {st : DispatcherState} (h1 : st.sockets = [])
    {r : Option String} (h2 : st.disconnected = some r) : disposeN k st = (st, []) := by
  induction k with
  | zero => rfl
  | succ n ih => simp [disposeN, dispose_settled h1 h2, ih]

theorem dispose_disconnected_settled (st : DispatcherState) :
    ∃ r : Option String, (dispose st).1.disconnected = some r := by
  cases hd : st.disconnected with
  | none => exact ⟨none, by simp [dispose, resolverResolve, hd]⟩
  | some r => exact ⟨r, by simp [dispose, resolverResolve, hd]⟩

/-! The claims. -/

/-- C1, counterexample: for the stale inbound `OKAY(9, 5)` on the fresh
dispatcher (id 5 is in neither the pending-open table nor the stream
table), the dispatcher does not send `CLSE(0, 9)` as the claim states; the
only packet sent is `CLSE(5, 9)` — `handleOk` (dispatcher line 122) calls
`sendPacket(Close, packet.arg1, packet.arg0)`, echoing the packet's `arg1`
as the reply's `arg0` instead of sending `0`. -/
theorem c1_counterexample :
    Effect.send { command := .Close, arg0 := 0, arg1 := 9, payload := [], checksum := 0 }
        ∉ (handleOk opts0 initState pStaleOk).2 ∧
    (handleOk opts0 initState pStaleOk).2
      = [.send { command := .Close, arg0 := 5, arg1 := 9, payload := [], checksum := 0 }] := by
  decide

/-- C1, amended: for every inbound OKAY packet with `arg0 = r` and
`arg1 = l` such that `l` is in neither the pending-open table nor the
stream table, the dispatcher sends a CLSE packet with `arg0 = l` and
`arg1 = r` (not `arg0 = 0`), and neither the stream table nor the
pending-open table is changed. -/
theorem c1_stale_okay_replies_close (opts : AdbPacketDispatcherOptions)
    (st : DispatcherState) (p : AdbPacketData)
    (h1 : p.arg1 ∉ st.pendingOpens) (h2 : mapGet st.sockets p.arg1 = none) :
    handleOk opts st p = (st, [.send (sendEmptyPacket opts .Close p.arg1 p.arg0)]) := by
  simp [handleOk, h1, h2]

/-- Witness for `c1_stale_okay_replies_close`: the fresh dispatcher
receiving `OKAY(9, 5)` (spec scenario S5) satisfies both hypotheses and
replies `CLSE(5, 9)` with the state untouched. -/
theorem c1_witness :
    5 ∉ initState.pendingOpens ∧ mapGet initState.sockets 5 = none ∧
    handleOk opts0 initState pStaleOk
      = (initState, [.send (sendEmptyPacket opts0 .Close 5 9)]) :=
  ⟨by decide, rfl,
   c1_stale_okay_replies_close opts0 initState pStaleOk (by decide) rfl⟩

/-- C2, counterexample: the claim fails on the code.  For the inbound
`OPEN(42, 0, "sync:\x00")` (payload bytes `[115,121,110,99,58,0]`)
accepted by the hook, the stream recorded under the allocated local id 1
has `serviceString = "sync:\x00"` — `handleOpen` (dispatcher line 162)
stores `decodeUtf8(packet.payload)` unmodified — while the claim's
NUL-stripped value is `"sync:"`. -/
theorem c2_counterexample :
    (mapGet (handleOpen opts0 initState pOpenSync true).1.sockets 1).map
        (fun c => c.serviceString) = some "sync:\x00" ∧
    specStripTrailingNul (decodeUtf8 pOpenSync.payload) = "sync:" ∧
    ("sync:\x00" : String) ≠ "sync:" := by
  decide

/-- C2, amended: for every inbound OPEN packet, the `serviceString`
recorded on the newly constructed stream equals the UTF-8 decoding of the
packet payload unmodified — a trailing NUL character is kept, not
stripped; in particular an OPEN whose payload decodes to `"sync:\x00"`
yields a stream whose `serviceString` is `"sync:\x00"`. -/
theorem c2_service_string_not_stripped (opts : AdbPacketDispatcherOptions)
    (st : DispatcherState) (p : AdbPacketData) :
    mapGet (handleOpen opts st p true).1.sockets st.nextId
      = some (openController st p) ∧
    (openController st p).serviceString = decodeUtf8 p.payload :=
  ⟨by simp [handleOpen, mapGet_mapSet_self], rfl⟩

/-- C3: for every inbound WRTE packet whose `arg1` is the local id of a
stream in the table, the dispatcher enqueues the payload on that stream
and sends `OKAY(localId, remoteId)` strictly afterwards (the effect list
records the calls in order: the `OKAY` send happens only once the awaited
`enqueue` has completed — dispatcher lines 72-76); for a WRTE matching no
stream, no packet is sent and the state is unchanged. -/
theorem c3_wrte_enqueue_then_okay (opts : AdbPacketDispatcherOptions)
    (st : DispatcherState) (p : AdbPacketData) :
    (∀ sk : AdbSocketController, mapGet st.sockets p.arg1 = some sk →
        handleWrite opts st p
          = (st, [.enqueue p.arg1 p.payload,
                  .send (sendEmptyPacket opts .OK p.arg1 p.arg0)])) ∧
    (mapGet st.sockets p.arg1 = none → handleWrite opts st p = (st, [])) := by
  constructor
  · intro sk h
    simp [handleWrite, h]
  · intro h
    simp [handleWrite, h]

/-- Witness for `c3_wrte_enqueue_then_okay`: the stream `(1, 17)` receives
`WRTE(17, 1, "hi")` (spec scenario S4); the payload is enqueued first and
`OKAY(1, 17)` is sent second. -/
theorem c3_witness :
    mapGet stOne.sockets 1 = some ctrl0 ∧
    handleWrite opts0 stOne pWrite
      = (stOne, [.enqueue 1 [104, 105], .send (sendEmptyPacket opts0 .OK 1 17)]) :=
  ⟨rfl, (c3_wrte_enqueue_then_okay opts0 stOne pWrite).1 ctrl0 rfl⟩

/-- C4: for every inbound CLSE packet with `arg0 = 0` whose `arg1` is a
pending open (and, per the reachability invariant, not a stream id), the
pending open is rejected with `Error("Socket open failed")` — so the
awaiting `createSocket` call fails (the `OpenRejected` error) — and
afterwards the id is in neither the pending-open table nor the stream
table (dispatcher lines 134-138). -/
theorem c4_clse_rejects_pending_open (opts : AdbPacketDispatcherOptions)
    (st : DispatcherState) (p : AdbPacketData)
    (h0 : p.arg0 = 0) (hp : p.arg1 ∈ st.pendingOpens)
    (hs : mapGet st.sockets p.arg1 = none) :
    (handleClose opts st p).2 = [.rejectOpen p.arg1 "Socket open failed"] ∧
    p.arg1 ∉ (handleClose opts st p).1.pendingOpens ∧
    (handleClose opts st p).1.sockets = st.sockets ∧
    mapGet (handleClose opts st p).1.sockets p.arg1 = none := by
  have hc : p.arg0 = 0 ∧ p.arg1 ∈ st.pendingOpens := ⟨h0, hp⟩
  rw [handleClose, if_pos hc]
  refine ⟨rfl, ?_, rfl, hs⟩
  simp [List.mem_filter]

/-- Witness for `c4_clse_rejects_pending_open`: the state with pending
open 5 receiving `CLSE(0, 5)` (spec scenario S2). -/
theorem c4_witness :
    pCloseReject.arg0 = 0 ∧ 5 ∈ stPend.pendingOpens ∧
    mapGet stPend.sockets 5 = none ∧
    (handleClose opts0 stPend pCloseReject).2
      = [.rejectOpen 5 "Socket open failed"] ∧
    5 ∉ (handleClose opts0 stPend pCloseReject).1.pendingOpens :=
  ⟨rfl, by decide, rfl,
   (c4_clse_rejects_pending_open opts0 stPend pCloseReject rfl (by decide) rfl).1,
   (c4_clse_rejects_pending_open opts0 stPend pCloseReject rfl (by decide) rfl).2.1⟩

/-- C5: for every inbound CLSE packet — any `arg0`, including nonzero —
whose `arg1` is the local id of a stream in the table (and which does not
hit the pending-open rejection of the `arg0 = 0` branch, which cannot
co-occur by the reachability invariant), the dispatcher replies
`CLSE(localId, remoteId)` if and only if the stream is not already closed
(the conditional in the effect list), then disposes the stream and removes
it from the table; a CLSE matching no pending open and no stream changes
nothing and sends nothing (dispatcher lines 140-153). -/
theorem c5_clse_disposes_stream (opts : AdbPacketDispatcherOptions)
    (st : DispatcherState) (p : AdbPacketData) :
    (∀ sk : AdbSocketController, mapGet st.sockets p.arg1 = some sk →
        (p.arg0 = 0 → p.arg1 ∉ st.pendingOpens) →
        handleClose opts st p
          = ({ st with sockets := mapDelete st.sockets p.arg1 },
             (if sk.closed then []
              else [.send (sendEmptyPacket opts .Close p.arg1 p.arg0)])
               ++ [.disposeSocket p.arg1]) ∧
        mapGet (handleClose opts st p).1.sockets p.arg1 = none ∧
        (handleClose opts st p).1.pendingOpens = st.pendingOpens) ∧
    (p.arg1 ∉ st.pendingOpens → mapGet st.sockets p.arg1 = none →
        handleClose opts st p = (st, [])) := by
  constructor
  · intro sk hs hp
    have hc : ¬(p.arg0 = 0 ∧ p.arg1 ∈ st.pendingOpens) := fun h => hp h.1 h.2
    refine ⟨?_, ?_, ?_⟩
    · rw [handleClose, if_neg hc, hs]
    · rw [handleClose, if_neg hc, hs]
      exact mapGet_mapDelete_self st.sockets p.arg1
    · rw [handleClose, if_neg hc, hs]
  · intro h1 h2
    have hc : ¬(p.arg0 = 0 ∧ p.arg1 ∈ st.pendingOpens) := fun h => h1 h.2
    rw [handleClose, if_neg hc, h2]

/-- Witness for `c5_clse_disposes_stream`, exercising both clauses: the
stream `(1, 17)`, not yet closed, receives `CLSE(17, 1)` (nonzero `arg0`):
the dispatcher replies `CLSE(1, 17)`, disposes the stream and removes it;
and the same `CLSE(17, 1)` arriving at the fresh dispatcher (no pending
open and no stream at all) changes nothing and sends nothing. -/
theorem c5_witness :
    mapGet stOne.sockets 1 = some ctrl0 ∧
    handleClose opts0 stOne pCloseStream
      = ({ stOne with sockets := mapDelete stOne.sockets 1 },
         [.send (sendEmptyPacket opts0 .Close 1 17), .disposeSocket 1]) ∧
    1 ∉ initState.pendingOpens ∧ mapGet initState.sockets 1 = none ∧
    handleClose opts0 initState pCloseStream = (initState, []) :=
  ⟨rfl,
   ((c5_clse_disposes_stream opts0 stOne pCloseStream).1 ctrl0 rfl (by decide)).1,
   by decide, rfl,
   (c5_clse_disposes_stream opts0 initState pCloseStream).2 (by decide) rfl⟩

/-- C6: at every point during any sequence of dispatcher operations
(`createSocket` halves, inbound OKAY/CLSE/WRTE/OPEN packets, `dispose`)
starting from the fresh state, no local id is simultaneously in the stream
table and in the pending-open table: `handleOk` removes a resolved id from
the pending table before the `createSocket` continuation inserts it into
the stream table, and `handleOpen` self-resolves the allocated id before
any insertion. -/
theorem c6_tables_disjoint (opts : AdbPacketDispatcherOptions)
    (ops : List DispOp) (id : Nat)
    (h : id ∈ (runOps opts initState ops).pendingOpens) :
    id ∉ socketIds (runOps opts initState ops) :=
  (inv_runOps opts ops initState inv_init).pend_sock id h

/-- Witness for `c6_tables_disjoint`: after a `createSocket` start the id
1 is pending, and hence not in the stream table. -/
theorem c6_witness :
    1 ∈ (runOps opts0 initState [DispOp.createStart "shell:"]).pendingOpens ∧
    1 ∉ socketIds (runOps opts0 initState [DispOp.createStart "shell:"]) :=
  ⟨by decide, c6_tables_disjoint opts0 [DispOp.createStart "shell:"] 1 (by decide)⟩

/-- C7: after `dispose()` returns — also when reached through either
completion branch of the inbound pipe (`onPipeSettled`, dispatcher lines
97-102) — every stream that was in the table has received `dispose()`
(the `disposeSocket` effects), the stream table is empty, and the
`disconnected` promise is resolved carrying no error (`some none`); the
effect list places every stream disposal before the resolution of
`disconnected`. -/
theorem c7_dispose_cleans_up (st : DispatcherState) (h : st.disconnected = none) :
    (dispose st).1.sockets = [] ∧
    (dispose st).1.disconnected = some none ∧
    (dispose st).2
      = st.sockets.map (fun e => Effect.disposeSocket e.1)
          ++ [Effect.resolveDisconnected] ∧
    (∀ e ∈ st.sockets, Effect.disposeSocket e.1 ∈ (dispose st).2) ∧
    (∀ errored : Bool, onPipeSettled errored st = dispose st) := by
  refine ⟨rfl, ?_, ?_, ?_, fun _ => rfl⟩
  · simp [dispose, resolverResolve, h]
  · simp [dispose, h]
  · intro e he
    simp only [dispose, h]
    exact List.mem_append.mpr (Or.inl (List.mem_map.mpr ⟨e, he, rfl⟩))

/-- Witness for `c7_dispose_cleans_up`: disposing the dispatcher holding
the single stream `(1, 17)` disposes that stream, empties the table and
resolves `disconnected`, in that order. -/
theorem c7_witness :
    stOne.disconnected = none ∧
    (dispose stOne).1.sockets = [] ∧
    (dispose stOne).1.disconnected = some none ∧
    (dispose stOne).2 = [.disposeSocket 1, .resolveDisconnected] :=
  ⟨rfl, (c7_dispose_cleans_up stOne rfl).1, (c7_dispose_cleans_up stOne rfl).2.1,
   (c7_dispose_cleans_up stOne rfl).2.2.1⟩

/-- C8: for every dispatcher state, calling `dispose()` `n ≥ 1` times in
succession reaches the same state and the same accumulated observable
effects as calling it exactly once: the second and later calls find the
stream table empty and the `disconnected` promise already settled, so they
dispose nothing and resolve nothing (and `dispose` is total — repeated
calls cannot fail). -/
theorem c8_dispose_idempotent (st : DispatcherState) (n : Nat) (h : 1 ≤ n) :
    disposeN n st = disposeN 1 st := by
  obtain ⟨m, rfl⟩ : ∃ m, n = m + 1 := ⟨n - 1, by omega⟩
  obtain ⟨r, hr⟩ := dispose_disconnected_settled st
  have h1 : (dispose st).1.sockets = [] := rfl
  simp [disposeN, disposeN_settled m h1 hr, disposeN_settled 0 h1 hr]

/-- Witness for `c8_dispose_idempotent`: three disposals of the state
holding the stream `(1, 17)` equal one. -/
theorem c8_witness :
    1 ≤ 3 ∧ disposeN 3 stOne = disposeN 1 stOne :=
  ⟨by decide, c8_dispose_idempotent stOne 3 (by decide)⟩

/-- C9: for every `sendPacket` call, a payload longer than
`maxPayloadSize` makes the call fail with the "payload too large" error
before anything reaches the transport writer (`Except.error`, so no packet
is produced; the dispatcher state is untouched — `sendPacket` reads only
the options); otherwise the packet is written with its checksum computed
from the payload exactly when `calculateChecksum` is set, and `0`
otherwise (dispatcher lines 244-255). -/
theorem c9_sendPacket_limit_and_checksum (opts : AdbPacketDispatcherOptions)
    (cmd : AdbCommand) (a0 a1 : Nat) (payload : List Nat) :
    (payload.length > opts.maxPayloadSize →
        sendPacket opts cmd a0 a1 payload = .error "payload too large") ∧
    (payload.length ≤ opts.maxPayloadSize →
        sendPacket opts cmd a0 a1 payload
          = .ok { command := cmd, arg0 := a0, arg1 := a1, payload := payload,
                  checksum :=
                    if opts.calculateChecksum then calculateChecksum payload
                    else 0 }) := by
  constructor
  · intro h
    rw [sendPacket, if_pos h]
  · intro h
    rw [sendPacket, if_neg (by omega)]

/-- Witness for `c9_sendPacket_limit_and_checksum`: a 3-byte payload over
the 2-byte limit fails; a 2-byte payload is written with checksum `0`
when checksums are off and with the byte sum `209` when they are on. -/
theorem c9_witness :
    ([1, 2, 3] : List Nat).length > optsTiny.maxPayloadSize ∧
    sendPacket optsTiny .Write 1 17 [1, 2, 3] = .error "payload too large" ∧
    ([104, 105] : List Nat).length ≤ opts0.maxPayloadSize ∧
    sendPacket opts0 .Write 1 17 [104, 105]
      = .ok { command := .Write, arg0 := 1, arg1 := 17, payload := [104, 105],
              checksum := 0 } ∧
    sendPacket optsChk .Write 1 17 [104, 105]
      = .ok { command := .Write, arg0 := 1, arg1 := 17, payload := [104, 105],
              checksum := 209 } :=
  ⟨by decide,
   (c9_sendPacket_limit_and_checksum optsTiny .Write 1 17 [1, 2, 3]).1 (by decide),
   by decide,
   (c9_sendPacket_limit_and_checksum opts0 .Write 1 17 [104, 105]).2 (by decide),
   (c9_sendPacket_limit_and_checksum optsChk .Write 1 17 [104, 105]).2 (by decide)⟩

/-- C10: when `appendNullToServiceString` is set, `createSocket` appends a
NUL character to the service string before sending the `OPEN` packet
(whose payload is the UTF-8 encoding of the extended string), and the
stream stored and returned carries the extended string as its
`serviceString` — a string ending in the NUL character and different from
the one the caller passed in (dispatcher lines 188-212). -/
theorem c10_append_nul_service_string (opts : AdbPacketDispatcherOptions)
    (st st2 : DispatcherState) (s : String) (remoteId : Nat)
    (h : opts.appendNullToServiceString = true) :
    (createSocketStart opts st s).service = s ++ "\x00" ∧
    (createSocketStart opts st s).sendResult
      = sendPacket opts .Open st.nextId 0 (encodeUtf8 (s ++ "\x00")) ∧
    ((createSocketFinish st2 st.nextId remoteId
        (createSocketStart opts st s).service).2).serviceString = s ++ "\x00" ∧
    mapGet (createSocketFinish st2 st.nextId remoteId
        (createSocketStart opts st s).service).1.sockets st.nextId
      = some { localId := st.nextId, remoteId := remoteId, localCreated := true,
               serviceString := s ++ "\x00", closed := false } ∧
    (s ++ "\x00").data = s.data ++ [Char.ofNat 0] ∧
    s ++ "\x00" ≠ s := by
  have hserv : (createSocketStart opts st s).service = s ++ "\x00" := by
    simp [createSocketStart, h]
  have hdata : (s ++ "\x00").data = s.data ++ [Char.ofNat 0] := by
    rw [String.data_append]
  refine ⟨hserv, ?_, ?_, ?_, hdata, ?_⟩
  · simp [createSocketStart, sendPacketStr, h]
  · simp [createSocketFinish, hserv]
  · simp [createSocketFinish, hserv, mapGet_mapSet_self]
  · intro heq
    have hlen := congrArg (fun t : String => t.data.length) heq
    simp [hdata] at hlen

/-- Witness for `c10_append_nul_service_string`: with NUL appending on,
`createSocket("shell:")` sends `OPEN(1, 0, "shell:\x00")` and stores a
stream whose `serviceString` is `"shell:\x00"`. -/
theorem c10_witness :
    optsNul.appendNullToServiceString = true ∧
    (createSocketStart optsNul initState "shell:").service = "shell:" ++ "\x00" ∧
    ((createSocketFinish initState 1 17
        (createSocketStart optsNul initState "shell:").service).2).serviceString
      = "shell:" ++ "\x00" ∧
    "shell:" ++ "\x00" ≠ "shell:" :=
  ⟨rfl,
   (c10_append_nul_service_string optsNul initState initState "shell:" 17 rfl).1,
   (c10_append_nul_service_string optsNul initState initState "shell:" 17 rfl).2.2.1,
   (c10_append_nul_service_string optsNul initState initState "shell:" 17 rfl).2.2.2.2.2⟩

end YaAdb
